import Mathlib

/-!
Shallow embedding of the Harmonic-Balance earth-printer slicer core
(`printer/generic_slicer.py` and the compatibility-report part of
`api/generate.py`).  Real-valued quantities of the Python source are
modelled as rationals; G-code lines are modelled as structured
instructions carrying the numeric fields that the source interpolates
into each text line (string formatting such as `:.3f` rounds only the
printed text, not the underlying values, and is abstracted away).
-/

namespace HarmonicBalance

/-- Mirrors the dataclass `PrinterConfig` of `printer/generic_slicer.py`. -/
structure PrinterConfig where
  name : String
  reach_radius_m : ℚ
  max_height_m : ℚ
  nozzle_diameter_mm : ℚ
  default_layer_height_mm : ℚ
  max_print_speed_mm_s : ℚ
  firmware : String
deriving DecidableEq, Repr

/-- The classmethod `PrinterConfig.wasp_crane`. -/
def PrinterConfig.wasp_crane : PrinterConfig :=
  { name := "WASP Crane"
    reach_radius_m := 3
    max_height_m := 7/2
    nozzle_diameter_mm := 40
    default_layer_height_mm := 20
    max_print_speed_mm_s := 50
    firmware := "Marlin" }

/-- The classmethod `PrinterConfig.generic_earth`. -/
def PrinterConfig.generic_earth : PrinterConfig :=
  { name := "Generic Earth Printer"
    reach_radius_m := 5/2
    max_height_m := 3
    nozzle_diameter_mm := 35
    default_layer_height_mm := 15
    max_print_speed_mm_s := 40
    firmware := "Marlin" }

/-- The classmethod `PrinterConfig.cobod_bod2`. -/
def PrinterConfig.cobod_bod2 : PrinterConfig :=
  { name := "COBOD BOD2"
    reach_radius_m := 10
    max_height_m := 42/5
    nozzle_diameter_mm := 50
    default_layer_height_mm := 25
    max_print_speed_mm_s := 60
    firmware := "Marlin" }

/-- Python `str.lower()` modelled character-wise on the underlying
character list. -/
def pyLower (s : String) : String := String.mk (s.data.map Char.toLower)

/-- Module-level function `get_printer_config`: dictionary lookup on the
lower-cased id with `PrinterConfig.wasp_crane()` as the `.get` fallback. -/
def get_printer_config (printer_type : String) : PrinterConfig :=
  let key := pyLower printer_type
  if key = "wasp_crane" then PrinterConfig.wasp_crane
  else if key = "wasp" then PrinterConfig.wasp_crane
  else if key = "generic" then PrinterConfig.generic_earth
  else if key = "cobod" then PrinterConfig.cobod_bod2
  else if key = "cobod_bod2" then PrinterConfig.cobod_bod2
  else PrinterConfig.wasp_crane

/-- Derived attribute `self.layer_height` of `GenericSlicer.__init__`
(default layer height converted from millimetres to metres). -/
def layerHeight (c : PrinterConfig) : ℚ := c.default_layer_height_mm / 1000

/-- Derived attribute `self.speed` of `GenericSlicer.__init__`. -/
def slicerSpeed (c : PrinterConfig) : ℚ := min 50 c.max_print_speed_mm_s

/-- One emitted G-code line, as structured data.  `comment` carries a tag
identifying the fixed text of the source line together with the numbers
interpolated into it; `commentName` carries an interpolated string.
`hexMove` is the `G1` vertex move of the honeycomb infill, recorded by
ring radius and vertex index because its x/y coordinates
`r*cos(i*pi/3), r*sin(i*pi/3)` are irrational for some `i`; no claim
under verification depends on those two coordinates. -/
inductive Instr where
  | comment (tag : String) (args : List ℚ)
  | commentName (tag s : String)
  | blank
  | g21
  | g90
  | m82
  | g28
  | m400
  | m84
  | m0 (msg : String)
  | g1 (x y z f : Option ℚ)
  | g2 (x y : ℚ) (z : Option ℚ) (i j : ℚ) (e : Option ℚ)
  | g3 (x y i j : ℚ)
  | hexMove (r : ℚ) (i : ℕ) (z : Option ℚ)
deriving DecidableEq, Repr

/-- Mirrors `GenericSlicer.generate_header`. -/
def generate_header (c : PrinterConfig) (material : String) : List Instr :=
  [ Instr.comment ("separator") []
  , Instr.comment ("Harmonic Habitats - Earth Construction G-code") []
  , Instr.commentName ("Generated for printer or compatible earth printer") c.name
  , Instr.comment ("Firmware: Marlin (standard earth printing profile)") []
  , Instr.comment ("separator") []
  , Instr.blank
  , Instr.comment ("Printer Specifications:") []
  , Instr.comment ("Reach radius") [c.reach_radius_m]
  , Instr.comment ("Max height") [c.max_height_m]
  , Instr.comment ("Nozzle diameter") [c.nozzle_diameter_mm]
  , Instr.comment ("Layer height") [c.default_layer_height_mm]
  , Instr.comment ("Print speed") [slicerSpeed c]
  , Instr.blank
  , Instr.commentName ("Material") material
  , Instr.blank
  , Instr.comment ("Startup sequence") []
  , Instr.g21
  , Instr.g90
  , Instr.m82
  , Instr.g28
  , Instr.g1 none none (some 50) (some 3000)
  , Instr.m400
  , Instr.blank
  , Instr.comment ("Material preparation (manual)") []
  , Instr.comment ("1. Load earth mix into hopper") []
  , Instr.comment ("2. Prime extruder until consistent flow") []
  , Instr.comment ("3. Verify nozzle clearance (paper test)") []
  , Instr.m0 ("Click to begin printing...")
  , Instr.blank ]

/-- Mirrors `GenericSlicer.generate_footer`. -/
def generate_footer : List Instr :=
  [ Instr.blank
  , Instr.comment ("Print complete") []
  , Instr.m400
  , Instr.g28
  , Instr.m0 ("Print complete - clean nozzle and power down")
  , Instr.m84 ]

/-- Python `int()` applied to a rational: truncation toward zero. -/
def pyInt (q : ℚ) : ℤ := if q < 0 then -(Int.floor (-q)) else Int.floor q

/-- The layer count `layers = int(height_m / self.layer_height)` computed
identically by `generate_circular_wall`, `generate_straight_wall` and
`generate_spiral_vase`. -/
def layersOf (c : PrinterConfig) (height_m : ℚ) : ℤ :=
  pyInt (height_m / layerHeight c)

/-- The per-layer height `z = (layer + 1) * self.layer_height` used by all
three generators. -/
def layerZ (c : PrinterConfig) (layer : ℕ) : ℚ :=
  ((layer : ℚ) + 1) * layerHeight c

/-- The constant `hex_size = 0.15` of `_generate_honeycomb_layer`. -/
def hex_size : ℚ := 15/100

/-- The `while r < outer_r - hex_size / 2` loop of
`_generate_honeycomb_layer`: emits the ring comment and the seven hexagon
vertex moves (the first carrying the layer z), then steps
`r += hex_size * 1.5`.  `ring` is the count of rings already emitted. -/
def honeycombRing (outer_r z r : ℚ) (ring : ℕ) : List Instr :=
  if r < outer_r - hex_size / 2 then
    Instr.comment ("Hex ring") [((ring : ℚ) + 1), r] ::
      ((List.range 7).map
        (fun i => Instr.hexMove r i (if i = 0 then some z else none))
       ++ honeycombRing outer_r z (r + hex_size * (3/2)) (ring + 1))
  else []
termination_by (Int.ceil ((outer_r - hex_size / 2 - r) / (hex_size * (3/2)))).toNat
decreasing_by
  have hs : (0 : ℚ) < hex_size * (3/2) := by norm_num [hex_size]
  have hq : 0 < (outer_r - hex_size / 2 - r) / (hex_size * (3/2)) := by
    apply div_pos _ hs
    linarith
  have harg : (outer_r - hex_size / 2 - (r + hex_size * (3/2))) / (hex_size * (3/2))
      = (outer_r - hex_size / 2 - r) / (hex_size * (3/2)) - 1 := by
    simp only [hex_size]
    ring
  rw [harg, Int.ceil_sub_one]
  have hpos : 0 < Int.ceil ((outer_r - hex_size / 2 - r) / (hex_size * (3/2))) :=
    Int.ceil_pos.mpr hq
  omega

/-- Mirrors `GenericSlicer._generate_honeycomb_layer`. -/
def generate_honeycomb_layer (inner_r outer_r z : ℚ) : List Instr :=
  Instr.comment ("Honeycomb infill layer") [] ::
    honeycombRing outer_r z (inner_r + hex_size) 0

/-- The body of the `for layer in range(layers)` loop of
`GenericSlicer.generate_circular_wall`: the layer comment, the move to
the start point, the clockwise outer-wall arc, the move to the inner
wall, the counter-clockwise inner-wall arc, the optional honeycomb
infill (every third layer, skipping layer 0), and the trailing blank
line. -/
def circularLayerBlock (c : PrinterConfig) (radius inner_radius : ℚ)
    (layers : ℤ) (infill : Bool) (layer : ℕ) : List Instr :=
  [ Instr.comment ("Layer") [((layer : ℚ) + 1), (layers : ℚ), layerZ c layer]
  , Instr.g1 (some radius) (some 0) (some (layerZ c layer))
      (some (min 30 (slicerSpeed c) * 60))
  , Instr.g2 radius 0 none (-radius) 0 (some ((layer : ℚ) * (1/2)))
  , Instr.g1 (some inner_radius) (some 0) (some (layerZ c layer))
      (some (slicerSpeed c * 60))
  , Instr.g3 inner_radius 0 (-inner_radius) 0 ]
  ++ (if infill = true ∧ 0 < layer ∧ layer % 3 = 0 then
        generate_honeycomb_layer inner_radius radius (layerZ c layer)
      else [])
  ++ [Instr.blank]

/-- Mirrors `GenericSlicer.generate_circular_wall`. -/
def generate_circular_wall (c : PrinterConfig)
    (diameter_m height_m wall_thickness_m : ℚ) (infill : Bool) : List Instr :=
  let radius := diameter_m / 2
  let inner_radius := radius - wall_thickness_m
  let layers := layersOf c height_m
  generate_header c ("local_earth_mix")
  ++ (if radius > c.reach_radius_m then
        [Instr.comment ("WARNING: Radius exceeds printer reach")
          [radius, c.reach_radius_m]]
      else [])
  ++ (if height_m > c.max_height_m then
        [Instr.comment ("WARNING: Height exceeds printer limit")
          [height_m, c.max_height_m]]
      else [])
  ++ [ Instr.comment ("Circular wall") [diameter_m, height_m, wall_thickness_m]
     , Instr.comment ("Total layers") [(layers : ℚ)]
     , Instr.blank ]
  ++ (List.range layers.toNat).flatMap
       (circularLayerBlock c radius inner_radius layers infill)
  ++ generate_footer

/-- Mirrors `GenericSlicer.generate_straight_wall`. -/
def generate_straight_wall (c : PrinterConfig)
    (length_m height_m wall_thickness_m : ℚ) : List Instr :=
  let layers := layersOf c height_m
  generate_header c ("local_earth_mix")
  ++ [ Instr.comment ("Straight wall") [length_m, height_m, wall_thickness_m]
     , Instr.blank ]
  ++ (List.range layers.toNat).flatMap (fun layer =>
       [ Instr.comment ("Layer") [((layer : ℚ) + 1)]
       , Instr.g1 (some 0) (some (wall_thickness_m / 2)) (some (layerZ c layer)) none
       , Instr.g1 (some length_m) (some (wall_thickness_m / 2)) none none
       , Instr.g1 (some length_m) (some (-(wall_thickness_m / 2))) none none
       , Instr.g1 (some 0) (some (-(wall_thickness_m / 2))) none none ])
  ++ generate_footer

/-- Mirrors `GenericSlicer.generate_spiral_vase`.  The extrusion value
`E{layer*0.1:.2f}` of the source is carried exactly; the second `G1`
argument of the source loop line omits x/y because the arc keeps them. -/
def generate_spiral_vase (c : PrinterConfig)
    (diameter_m height_m : ℚ) : List Instr :=
  let radius := diameter_m / 2
  let layers := layersOf c height_m
  generate_header c ("local_earth_mix")
  ++ [ Instr.comment ("Spiral vase mode") [diameter_m, height_m]
     , Instr.comment ("Continuous spiral - no Z-seams") []
     , Instr.blank
     , Instr.g1 (some radius) (some 0) (some (layerHeight c))
         (some (slicerSpeed c * 60)) ]
  ++ (List.range layers.toNat).map (fun layer =>
       Instr.g2 radius 0 (some (layerZ c layer)) (-radius) 0
         (some ((layer : ℚ) * (1/10))))
  ++ generate_footer

/-- The geometry-specs dictionary passed to
`generate_printer_compatibility_report`; each field is present exactly
when the corresponding key is present in the Python dict. -/
structure GeometrySpecs where
  diameter : Option ℚ
  height : Option ℚ
  length : Option ℚ
  width : Option ℚ
deriving DecidableEq, Repr

/-- One line of the text report of
`GenericSlicer.generate_printer_compatibility_report`.  The finding
lines carry the boolean `fits` that selects between the check mark and
the EXCEEDS marker in the source. -/
inductive ReportLine where
  | text (s : String)
  | textName (tag s : String)
  | textQ (tag : String) (q : ℚ)
  | findingDiameter (d r : ℚ) (fits : Bool)
  | findingHeight (h : ℚ) (fits : Bool)
  | findingLength (l : ℚ)
deriving DecidableEq, Repr

/-- Mirrors `GenericSlicer.generate_printer_compatibility_report`. -/
def generate_printer_compatibility_report (c : PrinterConfig)
    (g : GeometrySpecs) : List ReportLine :=
  [ ReportLine.text ("separator60")
  , ReportLine.text ("PRINTER COMPATIBILITY REPORT")
  , ReportLine.text ("separator60")
  , ReportLine.text ("")
  , ReportLine.textName ("Printer") c.name
  , ReportLine.textName ("Firmware") c.firmware
  , ReportLine.text ("")
  , ReportLine.text ("Printer Specifications:")
  , ReportLine.textQ ("Reach radius") c.reach_radius_m
  , ReportLine.textQ ("Maximum height") c.max_height_m
  , ReportLine.textQ ("Nozzle diameter") c.nozzle_diameter_mm
  , ReportLine.textQ ("Default layer height") c.default_layer_height_mm
  , ReportLine.textQ ("Max print speed") c.max_print_speed_mm_s
  , ReportLine.text ("")
  , ReportLine.text ("Geometry Requirements:") ]
  ++ (match g.diameter with
      | some d =>
        [ReportLine.findingDiameter d (d / 2)
          (if d / 2 ≤ c.reach_radius_m then true else false)]
      | none => [])
  ++ (match g.height with
      | some h =>
        [ReportLine.findingHeight h (if h ≤ c.max_height_m then true else false)]
      | none => [])
  ++ (match g.length with
      | some l => [ReportLine.findingLength l]
      | none => [])
  ++ [ ReportLine.text ("")
     , ReportLine.text ("Recommendations:")
     , ReportLine.textQ ("Use layer height") c.default_layer_height_mm
     , ReportLine.textQ ("Recommended speed") (min 30 c.max_print_speed_mm_s)
     , ReportLine.text ("Material: Local earth mix (see materials.py)")
     , ReportLine.text ("")
     , ReportLine.text ("Notes:")
     , ReportLine.text ("This G-code is compatible with any Marlin firmware printer")
     , ReportLine.text ("Calibrated for WASP Crane - adjust speeds for other printers")
     , ReportLine.text ("Always verify nozzle clearance before printing")
     , ReportLine.text ("")
     , ReportLine.text ("Generated by Harmonic Habitats Generic Slicer")
     , ReportLine.text ("separator60") ]

/-- The pass/fail marks recorded in a compatibility report, in order:
`true` is a check mark, `false` an EXCEEDS violation (the length line
carries no mark in the source and contributes nothing). -/
def reportFindings (lines : List ReportLine) : List Bool :=
  lines.filterMap (fun l =>
    match l with
    | ReportLine.findingDiameter _ _ b => some b
    | ReportLine.findingHeight _ b => some b
    | _ => none)

/-- The keyword geometry parameters of `generate_for_printer`
(`**geometry_params`): a field is `some` exactly when the caller passed
the keyword. -/
structure GeoParams where
  diameter : Option ℚ
  height : Option ℚ
  length : Option ℚ
  wall_thickness : Option ℚ
deriving DecidableEq, Repr

/-- The `geometry_params` dict viewed as the specs dict consumed by
`generate_printer_compatibility_report` (same keys). -/
def GeoParams.toSpecs (g : GeoParams) : GeometrySpecs :=
  { diameter := g.diameter
    height := g.height
    length := g.length
    width := none }

/-- The result dict of `generate_for_printer`. -/
structure GenResult where
  gcode : List Instr
  compatibility_report : List ReportLine
  printer : String
  firmware : String
deriving DecidableEq, Repr

/-- Mirrors the module-level function `generate_for_printer`; the
`ValueError` raised for an unknown typology becomes the `Except.error`
branch. -/
def generate_for_printer (typology printer_type : String)
    (params : GeoParams) : Except String GenResult :=
  let config := get_printer_config printer_type
  let gcode? : Except String (List Instr) :=
    if typology = "single_pod" then
      Except.ok (generate_circular_wall config
        (params.diameter.getD (13/2)) (params.height.getD (16/5))
        (params.wall_thickness.getD (3/10)) true)
    else if typology = "straight_wall" then
      Except.ok (generate_straight_wall config
        (params.length.getD 10) (params.height.getD 3)
        (params.wall_thickness.getD (3/10)))
    else if typology = "spiral_vase" then
      Except.ok (generate_spiral_vase config
        (params.diameter.getD 6) (params.height.getD 3))
    else Except.error ("Unknown typology: " ++ typology)
  match gcode? with
  | Except.error e => Except.error e
  | Except.ok gcode =>
    Except.ok
      { gcode := gcode
        compatibility_report :=
          generate_printer_compatibility_report config params.toSpecs
        printer := config.name
        firmware := config.firmware }

/-- The geometry dict fields read by
`HabitatGenerator._generate_compatibility_report` in `api/generate.py`:
the diameter and levels keys, and the optional length and width
entries of the nested data dict. -/
structure ApiGeometry where
  diameter : ℚ
  levels : ℚ
  data_length : Option ℚ
  data_width : Option ℚ
deriving DecidableEq, Repr

/-- The dict returned by
`HabitatGenerator._generate_compatibility_report` (the
`material_specification` entry, produced by the materials module, is
omitted: it does not contribute to any field below). -/
structure ApiCompatReport where
  printer : String
  reach_radius_m : ℚ
  max_height_m : ℚ
  nozzle_diameter_mm : ℚ
  geometry_specs : GeometrySpecs
  compatible : Bool
deriving DecidableEq, Repr

/-- Mirrors `HabitatGenerator._generate_compatibility_report` of
`api/generate.py` (the instance attribute `self.printer_type` is the
first argument).  Note the source literally returns
a hardcoded true compatible flag. -/
def api_generate_compatibility_report (printer_type typology : String)
    (geometry : ApiGeometry) : ApiCompatReport :=
  let geo_params : GeometrySpecs :=
    if typology = "single_pod" then
      { diameter := some geometry.diameter, height := some (16/5)
        length := none, width := none }
    else if typology = "organic_family" then
      { diameter := none, height := some (geometry.levels * (14/5))
        length := some (geometry.data_length.getD 15)
        width := some (geometry.data_width.getD (28/5)) }
    else
      { diameter := none, height := none, length := none, width := none }
  let config := get_printer_config printer_type
  { printer := config.name
    reach_radius_m := config.reach_radius_m
    max_height_m := config.max_height_m
    nozzle_diameter_mm := config.nozzle_diameter_mm
    geometry_specs := geo_params
    compatible := true }

/-- Selects the arc-move instructions (`G2`/`G3`). -/
def isArc (i : Instr) : Bool :=
  match i with
  | Instr.g2 _ _ _ _ _ _ => true
  | Instr.g3 _ _ _ _ => true
  | _ => false

/-- The explicit z coordinate of an arc move, when present. -/
def arcZ (i : Instr) : Option ℚ :=
  match i with
  | Instr.g2 _ _ z _ _ _ => z
  | _ => none

/-- The explicit z coordinate of a motion command, when present. -/
def motionZ (i : Instr) : Option ℚ :=
  match i with
  | Instr.g1 _ _ z _ => z
  | Instr.g2 _ _ z _ _ _ => z
  | Instr.hexMove _ _ z => z
  | _ => none

/-- The explicit feed rate `F` of a motion command, when present. -/
def feedOf (i : Instr) : Option ℚ :=
  match i with
  | Instr.g1 _ _ _ f => f
  | _ => none

/-- Counts the `Hex ring` comment lines, one per emitted infill ring. -/
def countRings (l : List Instr) : ℕ :=
  l.countP (fun i =>
    match i with
    | Instr.comment t _ => t = "Hex ring"
    | _ => false)

/-- The radii recorded in the `Hex ring` comment lines, in emission
order. -/
def ringRadii (l : List Instr) : List ℚ :=
  l.filterMap (fun i =>
    match i with
    | Instr.comment t args =>
      if t = "Hex ring" then some (args.getD 1 0) else none
    | _ => none)

/-- Step size of the hex-infill loop is positive. -/
lemma hexStep_pos : (0 : ℚ) < hex_size * (3/2) := by norm_num [hex_size]

/-- Unrolling measure of the hex-infill loop: one loop iteration lowers
the ceiling measure by exactly one. -/
lemma hexMeasure_step (outer_r r : ℚ) :
    (outer_r - hex_size / 2 - (r + hex_size * (3/2))) / (hex_size * (3/2))
      = (outer_r - hex_size / 2 - r) / (hex_size * (3/2)) - 1 := by
  simp only [hex_size]
  ring

/-- The loop guard holds exactly when the ceiling measure is positive. -/
lemma hexGuard_iff (outer_r r : ℚ) :
    r < outer_r - hex_size / 2 ↔
      0 < (outer_r - hex_size / 2 - r) / (hex_size * (3/2)) := by
  constructor
  · intro hlt
    exact div_pos (by linarith) hexStep_pos
  · intro hpos
    by_contra hnot
    push_neg at hnot
    have : (outer_r - hex_size / 2 - r) / (hex_size * (3/2)) ≤ 0 :=
      div_nonpos_of_nonpos_of_nonneg (by linarith) (le_of_lt hexStep_pos)
    linarith

/-- Evaluation of `ringRadii` on one hex-ring block: the ring comment
records its radius and the seven vertex moves record nothing. -/
lemma ringRadii_hexBlock (q rc rv z : ℚ) (l : List Instr) :
    ringRadii (Instr.comment ("Hex ring") [q, rc] ::
      ((List.range 7).map
        (fun i => Instr.hexMove rv i (if i = 0 then some z else none)) ++ l))
      = rc :: ringRadii l := by
  have h7 : List.range 7 = [0, 1, 2, 3, 4, 5, 6] := by decide
  simp [ringRadii, h7]

/-- The ring radii recorded by the hex-infill loop, as a closed form:
starting at radius `r`, the loop emits one ring per unit of the ceiling
measure, at radii `r, r + step, r + 2*step, ...`. -/
lemma ringRadii_honeycombRing (outer_r z : ℚ) :
    ∀ (n : ℕ) (r : ℚ) (ring : ℕ),
      (Int.ceil ((outer_r - hex_size / 2 - r) / (hex_size * (3/2)))).toNat = n →
      ringRadii (honeycombRing outer_r z r ring) =
        (List.range n).map (fun k : ℕ => r + (k : ℚ) * (hex_size * (3/2))) := by
  intro n
  induction n with
  | zero =>
    intro r ring h
    have hnot : ¬ (r < outer_r - hex_size / 2) := by
      rw [hexGuard_iff]
      intro hpos
      have : 0 < Int.ceil ((outer_r - hex_size / 2 - r) / (hex_size * (3/2))) :=
        Int.ceil_pos.mpr hpos
      omega
    rw [honeycombRing, if_neg hnot]
    simp [ringRadii]
  | succ n ih =>
    intro r ring h
    have hlt : r < outer_r - hex_size / 2 := by
      rw [hexGuard_iff, ← Int.ceil_pos]
      omega
    have hnext :
        (Int.ceil ((outer_r - hex_size / 2 - (r + hex_size * (3/2))) / (hex_size * (3/2)))).toNat = n := by
      rw [hexMeasure_step, Int.ceil_sub_one]
      omega
    have hrest := ih (r + hex_size * (3/2)) (ring + 1) hnext
    rw [honeycombRing, if_pos hlt, ringRadii_hexBlock, hrest,
      List.range_succ_eq_map, List.map_cons, List.map_map]
    simp only [Nat.cast_zero, zero_mul, add_zero]
    congr 1
    apply List.map_congr_left
    intro k _
    simp only [Function.comp_apply]
    push_cast
    ring

/-- Every instruction the hex-infill loop emits is a comment or a vertex
move: it carries no feed rate and is not an arc. -/
lemma honeycombRing_feed_arc_free (outer_r z : ℚ) :
    ∀ (n : ℕ) (r : ℚ) (ring : ℕ),
      (Int.ceil ((outer_r - hex_size / 2 - r) / (hex_size * (3/2)))).toNat = n →
      ∀ x ∈ honeycombRing outer_r z r ring, feedOf x = none ∧ isArc x = false := by
  intro n
  induction n with
  | zero =>
    intro r ring h x hx
    have hnot : ¬ (r < outer_r - hex_size / 2) := by
      rw [hexGuard_iff]
      intro hpos
      have : 0 < Int.ceil ((outer_r - hex_size / 2 - r) / (hex_size * (3/2))) :=
        Int.ceil_pos.mpr hpos
      omega
    rw [honeycombRing, if_neg hnot] at hx
    simp at hx
  | succ n ih =>
    intro r ring h x hx
    have hlt : r < outer_r - hex_size / 2 := by
      rw [hexGuard_iff, ← Int.ceil_pos]
      omega
    have hnext :
        (Int.ceil ((outer_r - hex_size / 2 - (r + hex_size * (3/2))) / (hex_size * (3/2)))).toNat = n := by
      rw [hexMeasure_step, Int.ceil_sub_one]
      omega
    rw [honeycombRing, if_pos hlt] at hx
    simp only [List.mem_cons, List.mem_append, List.mem_map] at hx
    rcases hx with hx | hx
    · subst hx
      exact ⟨rfl, rfl⟩
    · rcases hx with ⟨i, _, hx⟩ | hx
      · subst hx
        exact ⟨rfl, rfl⟩
      · exact ih (r + hex_size * (3/2)) (ring + 1) hnext x hx

/-- Every instruction of the honeycomb infill layer (ring comments and
vertex moves, plus the leading layer comment) carries no feed rate and
is not an arc. -/
lemma generate_honeycomb_layer_feed_arc_free (inner_r outer_r z : ℚ) :
    ∀ x ∈ generate_honeycomb_layer inner_r outer_r z,
      feedOf x = none ∧ isArc x = false := by
  intro x hx
  simp only [generate_honeycomb_layer, List.mem_cons] at hx
  rcases hx with hx | hx
  · subst hx
    exact ⟨rfl, rfl⟩
  · exact honeycombRing_feed_arc_free outer_r z _ (inner_r + hex_size) 0 rfl x hx

/-- The ring count is the length of the recorded ring-radius list. -/
lemma countRings_eq_length_ringRadii (l : List Instr) :
    countRings l = (ringRadii l).length := by
  simp only [countRings, ringRadii]
  induction l with
  | nil => rfl
  | cons x l ih =>
    rw [List.countP_cons, List.filterMap_cons]
    cases x
    case comment t args =>
      by_cases ht : t = "Hex ring" <;> simp [ht, ih]
    all_goals simp [ih]

/-- The honeycomb layer records the same ring radii as its loop (the
leading infill comment is not a ring comment). -/
lemma ringRadii_generate_honeycomb_layer (inner_r outer_r z : ℚ) :
    ringRadii (generate_honeycomb_layer inner_r outer_r z) =
      ringRadii (honeycombRing outer_r z (inner_r + hex_size) 0) := by
  simp [generate_honeycomb_layer, ringRadii]

/-- C3 (amended): the honeycomb infill emits concentric rings with radii
starting at `inner_radius + hex_size` and stepping by `1.5 * hex_size`,
and the number of rings is the ceiling (clamped at zero) of
`(outer_radius - inner_radius - 1.5*hex_size) / (1.5*hex_size)`; the
degenerate case emits zero rings rather than an error. -/
theorem honeycomb_ring_radii_and_count (inner_r outer_r z : ℚ) :
    ringRadii (generate_honeycomb_layer inner_r outer_r z) =
      (List.range ((Int.ceil ((outer_r - inner_r - hex_size * (3/2)) /
          (hex_size * (3/2)))).toNat)).map
        (fun k : ℕ => inner_r + hex_size + (k : ℚ) * (hex_size * (3/2)))
    ∧ countRings (generate_honeycomb_layer inner_r outer_r z) =
        (Int.ceil ((outer_r - inner_r - hex_size * (3/2)) /
          (hex_size * (3/2)))).toNat := by
  have harg : outer_r - hex_size / 2 - (inner_r + hex_size)
      = outer_r - inner_r - hex_size * (3/2) := by ring
  have hmain := ringRadii_honeycombRing outer_r z
    ((Int.ceil ((outer_r - hex_size / 2 - (inner_r + hex_size)) /
      (hex_size * (3/2)))).toNat) (inner_r + hex_size) 0 rfl
  rw [harg] at hmain
  constructor
  · rw [ringRadii_generate_honeycomb_layer, hmain]
  · rw [countRings_eq_length_ringRadii, ringRadii_generate_honeycomb_layer,
      hmain, List.length_map, List.length_range]

/-- C3 counterexample: at `inner_radius = 1`, `outer_radius = 2` (and the
fixed `hex_size = 0.15` of the code) the loop emits 4 rings (radii 1.15, 1.375,
1.6, 1.825), but the claimed formula
`floor((outer - inner - hex_size/2) / (1.5*hex_size)) + 1` evaluates
to 5. -/
theorem honeycomb_ring_count_formula_counterexample :
    (countRings (generate_honeycomb_layer 1 2 1) : ℤ) ≠
      Int.floor (((2 : ℚ) - 1 - hex_size / 2) / (hex_size * (3/2))) + 1 := by
  have h4ceil : Int.ceil (((2 : ℚ) - hex_size / 2 - (1 + hex_size)) /
      (hex_size * (3/2))) = 4 := by
    rw [Int.ceil_eq_iff]
    norm_num [hex_size]
  have h4 : (Int.ceil (((2 : ℚ) - hex_size / 2 - (1 + hex_size)) /
      (hex_size * (3/2)))).toNat = 4 := by
    rw [h4ceil]
    rfl
  have hcount : countRings (generate_honeycomb_layer 1 2 1) = 4 := by
    rw [countRings_eq_length_ringRadii, ringRadii_generate_honeycomb_layer,
      ringRadii_honeycombRing 2 1 4 (1 + hex_size) 0 h4,
      List.length_map, List.length_range]
  have hfloor : Int.floor (((2 : ℚ) - 1 - hex_size / 2) /
      (hex_size * (3/2))) = 4 := by
    rw [Int.floor_eq_iff]
    norm_num [hex_size]
  rw [hcount, hfloor]
  norm_num

/-- Evaluation of the registry lookup at the id `wasp_crane`. -/
lemma get_printer_config_wasp_crane :
    get_printer_config ("wasp_crane") = PrinterConfig.wasp_crane := by
  simp [get_printer_config, show pyLower ("wasp_crane") = "wasp_crane" from by decide]

/-- C1: the compatibility dict of `api/generate.py` hardcodes
the compatible flag to true.  At the scenario-A input (single pod, diameter
6.5 m, WASP Crane profile) the radius 3.25 m exceeds the 3.0 m reach and
the slicer report records a violating finding, yet the boolean is still
`true` — it is not the AND of the findings. -/
theorem api_compat_report_unconditionally_true :
    (api_generate_compatibility_report ("wasp_crane") ("single_pod")
      { diameter := 13/2, levels := 1, data_length := none
        data_width := none }).compatible = true
    ∧ ((13 : ℚ)/2) / 2 > (get_printer_config ("wasp_crane")).reach_radius_m
    ∧ (reportFindings (generate_printer_compatibility_report
        (get_printer_config ("wasp_crane"))
        { diameter := some (13/2), height := some (16/5), length := none
          width := none })).all id = false := by
  refine ⟨by simp [api_generate_compatibility_report], ?_, ?_⟩
  · rw [get_printer_config_wasp_crane]
    norm_num [PrinterConfig.wasp_crane]
  · rw [get_printer_config_wasp_crane]
    simp [generate_printer_compatibility_report, reportFindings,
      PrinterConfig.wasp_crane]
    norm_num

/-- C4: `generate_circular_wall` performs no degenerate-shape validation.
With diameter 0.4 m and wall thickness 0.3 m the inner radius is the
negative value -0.1 m, yet the generator returns a full instruction
stream containing the inner-wall counter-clockwise arc at that negative
radius instead of failing before emission. -/
theorem circular_wall_emits_despite_degenerate_shape :
    (3 : ℚ)/10 ≥ (2 : ℚ)/5 / 2
    ∧ (2 : ℚ)/5 / 2 - 3/10 < 0
    ∧ Instr.g3 (-(1/10)) 0 (1/10) 0 ∈
        generate_circular_wall PrinterConfig.wasp_crane (2/5) (1/10) (3/10) false := by
  refine ⟨by norm_num, by norm_num, ?_⟩
  have hlayers : layersOf PrinterConfig.wasp_crane (1/10) = 5 := by
    norm_num [layersOf, pyInt, layerHeight, PrinterConfig.wasp_crane]
  have hblock : Instr.g3 (-(1/10)) 0 (1/10) 0 ∈
      circularLayerBlock PrinterConfig.wasp_crane ((2 : ℚ)/5/2) ((2 : ℚ)/5/2 - 3/10)
        (layersOf PrinterConfig.wasp_crane (1/10)) false 0 := by
    simp [circularLayerBlock]
    norm_num
  simp only [generate_circular_wall]
  apply List.mem_append_left
  apply List.mem_append_right
  rw [List.mem_flatMap]
  refine ⟨0, ?_, hblock⟩
  rw [hlayers]
  simp

/-- C7: generation is a pure function of `(typology, printer, params)`;
two runs on identical inputs produce identical instruction streams and
identical compatibility reports.  The source performs no I/O and reads
no mutable state inside `generate_for_printer`, which the embedding
reflects by being a function of exactly these inputs. -/
theorem generate_for_printer_deterministic :
    ∀ (typology printer_type : String) (params : GeoParams),
      generate_for_printer typology printer_type params =
        generate_for_printer typology printer_type params :=
  fun _ _ _ => rfl

/-- C2 (amended): for positive height and layer height, the layer count
is the floor (Python `int` truncation) of `height / layer_height`, and
the per-layer z values `(i+1) * layer_height` are strictly increasing
with no duplicates. -/
theorem layer_count_floor_and_z_strict_mono (c : PrinterConfig) (height_m : ℚ)
    (hd : 0 < layerHeight c) (hh : 0 < height_m) :
    layersOf c height_m = Int.floor (height_m / layerHeight c)
    ∧ ∀ i j : ℕ, i < j → layerZ c i < layerZ c j := by
  constructor
  · have hq : ¬ (height_m / layerHeight c < 0) := by
      push_neg
      exact div_nonneg hh.le hd.le
    simp [layersOf, pyInt, hq]
  · intro i j hij
    have hcast : ((i : ℚ) + 1) < ((j : ℚ) + 1) := by
      have : (i : ℚ) < (j : ℚ) := by exact_mod_cast hij
      linarith
    exact mul_lt_mul_of_pos_right hcast hd

/-- Witness for C2 at the WASP Crane profile and height 0.03 m. -/
theorem layer_count_floor_witness :
    0 < layerHeight PrinterConfig.wasp_crane
    ∧ (0 : ℚ) < 3/100
    ∧ (layersOf PrinterConfig.wasp_crane (3/100) =
        Int.floor ((3/100 : ℚ) / layerHeight PrinterConfig.wasp_crane)
       ∧ ∀ i j : ℕ, i < j →
          layerZ PrinterConfig.wasp_crane i < layerZ PrinterConfig.wasp_crane j) :=
  ⟨by norm_num [layerHeight, PrinterConfig.wasp_crane], by norm_num,
   layer_count_floor_and_z_strict_mono PrinterConfig.wasp_crane (3/100)
     (by norm_num [layerHeight, PrinterConfig.wasp_crane]) (by norm_num)⟩

/-- C5: the circular-wall stream is the header, the warnings, the wall
metadata, one block per layer, and the footer; and every layer block is,
in order, the layer comment, the move to the start point, the single
clockwise (G2) full-circle arc at the outer radius, the move to the
inner wall, the single counter-clockwise (G3) full-circle arc at
`inner_radius = outer_radius - wall_thickness`, then the optional
honeycomb infill, then the blank line — outer before inner before
infill, with the CW-outer/CCW-inner convention on every layer. -/
theorem circular_wall_layer_block_order (c : PrinterConfig)
    (diameter_m height_m wall_thickness_m : ℚ) (infill : Bool) :
    generate_circular_wall c diameter_m height_m wall_thickness_m infill =
      generate_header c ("local_earth_mix")
      ++ (if diameter_m / 2 > c.reach_radius_m then
            [Instr.comment ("WARNING: Radius exceeds printer reach")
              [diameter_m / 2, c.reach_radius_m]]
          else [])
      ++ (if height_m > c.max_height_m then
            [Instr.comment ("WARNING: Height exceeds printer limit")
              [height_m, c.max_height_m]]
          else [])
      ++ [ Instr.comment ("Circular wall") [diameter_m, height_m, wall_thickness_m]
         , Instr.comment ("Total layers") [((layersOf c height_m : ℤ) : ℚ)]
         , Instr.blank ]
      ++ (List.range (layersOf c height_m).toNat).flatMap
           (circularLayerBlock c (diameter_m / 2)
             (diameter_m / 2 - wall_thickness_m) (layersOf c height_m) infill)
      ++ generate_footer
    ∧ ∀ layer : ℕ,
        circularLayerBlock c (diameter_m / 2) (diameter_m / 2 - wall_thickness_m)
            (layersOf c height_m) infill layer =
          [ Instr.comment ("Layer")
              [((layer : ℚ) + 1), ((layersOf c height_m : ℤ) : ℚ), layerZ c layer]
          , Instr.g1 (some (diameter_m / 2)) (some 0) (some (layerZ c layer))
              (some (min 30 (slicerSpeed c) * 60))
          , Instr.g2 (diameter_m / 2) 0 none (-(diameter_m / 2)) 0
              (some ((layer : ℚ) * (1/2)))
          , Instr.g1 (some (diameter_m / 2 - wall_thickness_m)) (some 0)
              (some (layerZ c layer)) (some (slicerSpeed c * 60))
          , Instr.g3 (diameter_m / 2 - wall_thickness_m) 0
              (-(diameter_m / 2 - wall_thickness_m)) 0 ]
          ++ (if infill = true ∧ 0 < layer ∧ layer % 3 = 0 then
                generate_honeycomb_layer (diameter_m / 2 - wall_thickness_m)
                  (diameter_m / 2) (layerZ c layer)
              else [])
          ++ [Instr.blank] :=
  ⟨rfl, fun _ => rfl⟩

/-- C8: profile lookup is total — each catalogued id returns its
catalogued profile and every id whose lower-casing is not a registry key
falls back to the WASP Crane configuration. -/
theorem get_printer_config_total_with_fallback :
    get_printer_config ("wasp_crane") = PrinterConfig.wasp_crane
    ∧ get_printer_config ("wasp") = PrinterConfig.wasp_crane
    ∧ get_printer_config ("generic") = PrinterConfig.generic_earth
    ∧ get_printer_config ("cobod") = PrinterConfig.cobod_bod2
    ∧ get_printer_config ("cobod_bod2") = PrinterConfig.cobod_bod2
    ∧ ∀ s : String,
        pyLower s ∉ (["wasp_crane", "wasp", "generic", "cobod", "cobod_bod2"] : List String) →
        get_printer_config s = PrinterConfig.wasp_crane := by
  refine ⟨?_, ?_, ?_, ?_, ?_, ?_⟩
  · simp [get_printer_config, show pyLower ("wasp_crane") = "wasp_crane" from by decide]
  · simp [get_printer_config, show pyLower ("wasp") = "wasp" from by decide]
  · simp [get_printer_config, show pyLower ("generic") = "generic" from by decide]
  · simp [get_printer_config, show pyLower ("cobod") = "cobod" from by decide]
  · simp [get_printer_config, show pyLower ("cobod_bod2") = "cobod_bod2" from by decide]
  · intro s h
    simp only [List.mem_cons, List.not_mem_nil, or_false] at h
    push_neg at h
    obtain ⟨h1, h2, h3, h4, h5⟩ := h
    simp [get_printer_config, h1, h2, h3, h4, h5]

/-- Witness for C8 at the concrete unknown id `unknown_printer`. -/
theorem get_printer_config_fallback_witness :
    pyLower ("unknown_printer") ∉
      (["wasp_crane", "wasp", "generic", "cobod", "cobod_bod2"] : List String)
    ∧ get_printer_config ("unknown_printer") = PrinterConfig.wasp_crane :=
  ⟨by decide,
   get_printer_config_total_with_fallback.2.2.2.2.2 ("unknown_printer") (by decide)⟩

/-- C2 counterexample: with the WASP Crane layer height 0.020 m and
height 0.03 m the code produces `int(0.03/0.020) = 1` layer, while
`ceil` would give 2 — the layer count is the truncation, not the
ceiling, of `height / layer_height`. -/
theorem layer_count_ceil_counterexample :
    layersOf PrinterConfig.wasp_crane (3/100) ≠
      Int.ceil ((3/100 : ℚ) / layerHeight PrinterConfig.wasp_crane) := by
  have h1 : layersOf PrinterConfig.wasp_crane (3/100) = 1 := by
    norm_num [layersOf, pyInt, layerHeight, PrinterConfig.wasp_crane]
  have h2 : Int.ceil ((3/100 : ℚ) / layerHeight PrinterConfig.wasp_crane) = 2 := by
    rw [Int.ceil_eq_iff]
    norm_num [layerHeight, PrinterConfig.wasp_crane]
  rw [h1, h2]
  norm_num

/-- C6 counterexample: for a 2-layer spiral vase on the WASP Crane the
explicit z values of successive motion commands across the full stream
are 50 (preamble safe-height move), 0.02 (start positioning move), 0.02
(first spiral arc), 0.04 — the sequence is not strictly increasing. -/
theorem spiral_vase_z_not_strictly_increasing :
    ¬ List.Chain' (fun a b => a < b)
        ((generate_spiral_vase PrinterConfig.wasp_crane 6 (1/25)).filterMap motionZ) := by
  have hlayers : layersOf PrinterConfig.wasp_crane (1/25) = 2 := by
    norm_num [layersOf, pyInt, layerHeight, PrinterConfig.wasp_crane]
  have hrange : List.range (Int.toNat 2) = [0, 1] := by decide
  simp only [generate_spiral_vase, hlayers, hrange, generate_header, generate_footer]
  simp only [List.map_cons, List.map_nil, List.filterMap_append, List.filterMap_cons,
    List.filterMap_nil, motionZ]
  simp only [List.cons_append, List.nil_append, List.chain'_cons]
  intro h
  have h50 : (50 : ℚ) < layerHeight PrinterConfig.wasp_crane := h.1
  norm_num [layerHeight, PrinterConfig.wasp_crane] at h50

/-- C6 (amended): the spiral-vase stream contains exactly one arc move
per layer index, the arc z values are exactly `(i+1) * layer_height` in
layer order, and the z of the arc moves is strictly increasing (the full
stream additionally contains the preamble safe-height move and the
initial positioning move, which is why the monotonicity statement is
about the arc moves). -/
theorem spiral_vase_arcs_per_layer_and_z_mono (c : PrinterConfig)
    (diameter_m height_m : ℚ) (hd : 0 < layerHeight c) :
    (generate_spiral_vase c diameter_m height_m).countP isArc
      = (layersOf c height_m).toNat
    ∧ (generate_spiral_vase c diameter_m height_m).filterMap arcZ
      = (List.range (layersOf c height_m).toNat).map (layerZ c)
    ∧ List.Pairwise (fun a b => a < b)
        ((generate_spiral_vase c diameter_m height_m).filterMap arcZ) := by
  have hzs : (generate_spiral_vase c diameter_m height_m).filterMap arcZ
      = (List.range (layersOf c height_m).toNat).map (layerZ c) := by
    simp only [generate_spiral_vase, generate_header, generate_footer,
      List.filterMap_append, List.filterMap_cons, List.filterMap_map, arcZ,
      Function.comp_def, List.nil_append, List.cons_append, List.filterMap_nil]
    rw [show (fun layer => some (layerZ c layer)) = some ∘ layerZ c from rfl,
      List.filterMap_eq_map, List.append_nil]
  refine ⟨?_, hzs, ?_⟩
  · simp [generate_spiral_vase, generate_header, generate_footer, isArc,
      List.countP_append, List.countP_cons, List.countP_map, Function.comp_def]
  · rw [hzs]
    refine (List.pairwise_lt_range _).map (layerZ c) ?_
    intro i j hij
    have hcast : ((i : ℚ) + 1) < ((j : ℚ) + 1) := by
      have : (i : ℚ) < (j : ℚ) := by exact_mod_cast hij
      linarith
    exact mul_lt_mul_of_pos_right hcast hd

/-- Witness for C6 at the WASP Crane profile, diameter 6 m, height
0.04 m (two layers). -/
theorem spiral_vase_arcs_witness :
    0 < layerHeight PrinterConfig.wasp_crane
    ∧ ((generate_spiral_vase PrinterConfig.wasp_crane 6 (1/25)).countP isArc
        = (layersOf PrinterConfig.wasp_crane (1/25)).toNat
       ∧ (generate_spiral_vase PrinterConfig.wasp_crane 6 (1/25)).filterMap arcZ
        = (List.range (layersOf PrinterConfig.wasp_crane (1/25)).toNat).map
            (layerZ PrinterConfig.wasp_crane)
       ∧ List.Pairwise (fun a b => a < b)
          ((generate_spiral_vase PrinterConfig.wasp_crane 6 (1/25)).filterMap arcZ)) :=
  ⟨by norm_num [layerHeight, PrinterConfig.wasp_crane],
   spiral_vase_arcs_per_layer_and_z_mono PrinterConfig.wasp_crane 6 (1/25)
     (by norm_num [layerHeight, PrinterConfig.wasp_crane])⟩

/-- C10: when the height is strictly between zero and one layer height,
the layer count is zero and circular-wall generation succeeds, returning
the full fixed preamble, the wall metadata with a `Total layers: 0`
annotation, zero layer blocks, and the full fixed postamble. -/
theorem subsingle_layer_height_wellformed (c : PrinterConfig)
    (diameter_m wall_thickness_m height_m : ℚ) (infill : Bool)
    (h0 : 0 < height_m) (h1 : height_m < layerHeight c) :
    layersOf c height_m = 0
    ∧ generate_circular_wall c diameter_m height_m wall_thickness_m infill =
        generate_header c ("local_earth_mix")
        ++ (if diameter_m / 2 > c.reach_radius_m then
              [Instr.comment ("WARNING: Radius exceeds printer reach")
                [diameter_m / 2, c.reach_radius_m]]
            else [])
        ++ (if height_m > c.max_height_m then
              [Instr.comment ("WARNING: Height exceeds printer limit")
                [height_m, c.max_height_m]]
            else [])
        ++ [ Instr.comment ("Circular wall")
               [diameter_m, height_m, wall_thickness_m]
           , Instr.comment ("Total layers") [0]
           , Instr.blank ]
        ++ generate_footer := by
  have hd : 0 < layerHeight c := lt_trans h0 h1
  have hq0 : 0 ≤ height_m / layerHeight c := div_nonneg h0.le hd.le
  have hq1 : height_m / layerHeight c < 1 := (div_lt_one hd).mpr h1
  have hfl : Int.floor (height_m / layerHeight c) = 0 := by
    rw [Int.floor_eq_zero_iff]
    exact Set.mem_Ico.mpr ⟨hq0, hq1⟩
  have hlay : layersOf c height_m = 0 := by
    simp [layersOf, pyInt, not_lt.mpr hq0, hfl]
  refine ⟨hlay, ?_⟩
  simp only [generate_circular_wall, hlay]
  simp

/-- Witness for C10 at the WASP Crane profile and height 0.01 m. -/
theorem subsingle_layer_height_witness :
    0 < (1 : ℚ)/100
    ∧ (1 : ℚ)/100 < layerHeight PrinterConfig.wasp_crane
    ∧ layersOf PrinterConfig.wasp_crane (1/100) = 0 :=
  ⟨by norm_num, by norm_num [layerHeight, PrinterConfig.wasp_crane],
   (subsingle_layer_height_wellformed PrinterConfig.wasp_crane 6 (3/10) (1/100)
     true (by norm_num)
     (by norm_num [layerHeight, PrinterConfig.wasp_crane])).1⟩

/-- C9 counterexample: the fixed preamble emits `G1 Z50 F3000` for every
profile; for the Generic Earth profile (max print speed 40 mm/s) the
feed 3000 exceeds `60 * 40 = 2400`, so not every emitted feed rate is a
clamped 60-fold speed below the profile maximum. -/
theorem feed_rate_bound_counterexample :
    Instr.g1 none none (some 50) (some 3000) ∈
        generate_circular_wall PrinterConfig.generic_earth 6 (1/10) (3/10) false
    ∧ ¬ ((3000 : ℚ) ≤ 60 * PrinterConfig.generic_earth.max_print_speed_mm_s) := by
  constructor
  · simp only [generate_circular_wall]
    apply List.mem_append_left
    apply List.mem_append_left
    apply List.mem_append_left
    apply List.mem_append_left
    apply List.mem_append_left
    simp [generate_header]
  · norm_num [PrinterConfig.generic_earth]

/-- The only feed rate in the fixed header is the constant 3000 of the
safe-height move. -/
lemma feedOf_header (c : PrinterConfig) (mat : String) :
    ∀ x ∈ generate_header c mat, feedOf x = none ∨ feedOf x = some 3000 := by
  intro x hx
  fin_cases hx <;> simp [feedOf]

/-- The fixed footer contains no feed rates. -/
lemma feedOf_footer : ∀ x ∈ generate_footer, feedOf x = none := by
  intro x hx
  fin_cases hx <;> simp [feedOf]

/-- C9 (amended): every feed rate emitted by circular-wall generation is
either the fixed preamble constant F3000 or at most 60 times
`min(50, max_print_speed)` (the outer-perimeter feed is further clamped
through `min 30`); in particular no layer-body instruction exceeds
60 times the clamped speed, while the preamble constant can exceed
`60 * max_print_speed` for slow profiles. -/
theorem feed_rate_clamped_or_preamble (c : PrinterConfig)
    (diameter_m height_m wall_thickness_m : ℚ) (infill : Bool) :
    ∀ f ∈ (generate_circular_wall c diameter_m height_m wall_thickness_m
        infill).filterMap feedOf,
      f = 3000 ∨ f ≤ 60 * min 50 c.max_print_speed_mm_s := by
  intro f hf
  rw [List.mem_filterMap] at hf
  obtain ⟨x, hx, hfx⟩ := hf
  simp only [generate_circular_wall, List.mem_append] at hx
  rcases hx with ((((hx | hx) | hx) | hx) | hx) | hx
  · rcases feedOf_header c _ x hx with hn | h3
    · rw [hn] at hfx
      exact absurd hfx (by simp)
    · rw [h3] at hfx
      left
      exact (Option.some_inj.mp hfx).symm
  · by_cases hp : diameter_m / 2 > c.reach_radius_m
    · rw [if_pos hp] at hx
      simp only [List.mem_singleton] at hx
      subst hx
      simp [feedOf] at hfx
    · rw [if_neg hp] at hx
      simp at hx
  · by_cases hp : height_m > c.max_height_m
    · rw [if_pos hp] at hx
      simp only [List.mem_singleton] at hx
      subst hx
      simp [feedOf] at hfx
    · rw [if_neg hp] at hx
      simp at hx
  · simp only [List.mem_cons, List.not_mem_nil, or_false] at hx
    rcases hx with rfl | rfl | rfl <;> simp [feedOf] at hfx
  · rw [List.mem_flatMap] at hx
    obtain ⟨layer, _, hxb⟩ := hx
    simp only [circularLayerBlock, List.mem_append] at hxb
    rcases hxb with (h5 | hinf) | hblank
    · simp only [List.mem_cons, List.not_mem_nil, or_false] at h5
      rcases h5 with rfl | rfl | rfl | rfl | rfl
      · simp [feedOf] at hfx
      · simp only [feedOf, Option.some_inj] at hfx
        right
        rw [← hfx]
        have hmin : min 30 (slicerSpeed c) ≤ slicerSpeed c := min_le_right _ _
        calc min 30 (slicerSpeed c) * 60
            ≤ slicerSpeed c * 60 := by
              exact mul_le_mul_of_nonneg_right hmin (by norm_num)
          _ = 60 * min 50 c.max_print_speed_mm_s := by
              rw [slicerSpeed]
              ring
      · simp [feedOf] at hfx
      · simp only [feedOf, Option.some_inj] at hfx
        right
        rw [← hfx]
        apply le_of_eq
        rw [slicerSpeed]
        ring
      · simp [feedOf] at hfx
    · by_cases hc : infill = true ∧ 0 < layer ∧ layer % 3 = 0
      · rw [if_pos hc] at hinf
        have hnone := (generate_honeycomb_layer_feed_arc_free _ _ _ x hinf).1
        rw [hnone] at hfx
        exact absurd hfx (by simp)
      · rw [if_neg hc] at hinf
        simp at hinf
    · simp only [List.mem_singleton] at hblank
      subst hblank
      simp [feedOf] at hfx
  · rw [feedOf_footer x hx] at hfx
    exact absurd hfx (by simp)

/-- Witness for C9: the preamble feed 3000 occurs in a WASP Crane
circular-wall stream and satisfies the amended disjunction. -/
theorem feed_rate_clamped_witness :
    (3000 : ℚ) ∈ (generate_circular_wall PrinterConfig.wasp_crane 6 (16/5)
        (3/10) true).filterMap feedOf
    ∧ ((3000 : ℚ) = 3000
       ∨ (3000 : ℚ) ≤ 60 * min 50 PrinterConfig.wasp_crane.max_print_speed_mm_s) := by
  have hmem : (3000 : ℚ) ∈ (generate_circular_wall PrinterConfig.wasp_crane 6
      (16/5) (3/10) true).filterMap feedOf := by
    rw [List.mem_filterMap]
    refine ⟨Instr.g1 none none (some 50) (some 3000), ?_, rfl⟩
    simp only [generate_circular_wall]
    apply List.mem_append_left
    apply List.mem_append_left
    apply List.mem_append_left
    apply List.mem_append_left
    apply List.mem_append_left
    simp [generate_header]
  exact ⟨hmem,
    feed_rate_clamped_or_preamble PrinterConfig.wasp_crane 6 (16/5) (3/10)
      true 3000 hmem⟩

end HarmonicBalance
